import Mathlib

/-!
Verification of the cache / transient-status core of the `stablecoin-hooks`
repository, shallowly embedded in Lean.

The storage medium (browser cookies accessed through `js-cookie`) is modelled
as an association list from cookie names to entries; times are epoch
milliseconds modelled as `Int`; JSON-serializable values are the `Json`
inductive below.  Network calls are suspension points whose outcomes are
passed in as explicit `Except` parameters; React `useState` cells become
fields of explicit state records threaded through each operation.
-/

namespace StablecoinHooks

/-- A JSON-serializable value, the kind of value the hooks place in the cache
(`JSON.stringify` / `JSON.parse` round-trip these exactly; numbers are kept
as integers, which covers every value the hooks store and every timestamp). -/
inductive Json where
  | null : Json
  | bool (b : Bool) : Json
  | num (n : Int) : Json
  | str (s : String) : Json
  | arr (elems : List Json) : Json
  | obj (fields : List (String × Json)) : Json


/-- JavaScript truthiness of a parsed-JSON value, as tested by the hooks'
`if (cached)` / `if (data.tokens)` checks: `null`, `false`, `0` and the empty
string are falsy; every array and object is truthy. -/
def Json.truthy : Json → Bool
  | .null => false
  | .bool b => b
  | .num n => n != 0
  | .str s => s != ""
  | .arr _ => true
  | .obj _ => true

/-- JavaScript property access `j.name` on a parsed JSON value: a field lookup
on objects, `undefined` (here `none`) on every other value. -/
def Json.getField : Json → String → Option Json
  | .obj fields, name => lookupField fields name
  | _, _ => none
where
  /-- First-match lookup in the object's field list. -/
  lookupField : List (String × Json) → String → Option Json
    | [], _ => none
    | (k, v) :: rest, name => if k = name then some v else lookupField rest name

/-- Truthiness of a possibly-`undefined` JS value (`none` models `undefined`). -/
def jsTruthy : Option Json → Bool
  | none => false
  | some v => v.truthy

/-- Truthiness of an optional string such as the hooks' `apiKey?: string`
(`if (apiKey)`): `undefined` and the empty string are falsy. -/
def strTruthy : Option String → Bool
  | none => false
  | some s => s != ""

/-- JavaScript `x || d` on an optional string field: `d` unless `x` is a
truthy (non-empty) string. -/
def strOr (x : Option String) (d : String) : String :=
  match x with
  | some s => if s = "" then d else s
  | none => d

/-- The raw string stored in a cookie, abstracted by its parse outcome, which
is all `getCache` ever observes of it:
* `corrupt` — a string `JSON.parse` rejects, or one parsing to a
  non-destructurable value (`null`), so that
  `const { value, ts } = JSON.parse(raw)` throws;
* `parsed value tsNum` — parsing and destructuring succeed; `value` is the
  `value` field (`none` when absent, i.e. `undefined`), and `tsNum` is the
  result of numerically coercing the `ts` field, as `Date.now() - ts` does
  (`none` models a missing `ts` or one whose coercion is `NaN`).

`setCache` always writes `JSON.stringify({ value, ts: Date.now() })`, whose
parse outcome is `parsed (some value) (some now)`: JSON round-trips exactly. -/
inductive StoredPayload where
  | corrupt : StoredPayload
  | parsed (value : Option Json) (tsNum : Option Int) : StoredPayload


/-- One cookie: its payload and the medium-level expiry instant the writer
requested (the `expires` option of `Cookies.set`, converted to epoch ms). -/
structure CookieEntry where
  payload : StoredPayload
  expiresAt : Int


/-- The browser cookie jar: an association list from cookie names to entries. -/
abbrev CookieJar : Type := List (String × CookieEntry)

/-- Raw lookup of a cookie entry by name (first match). -/
def jarFind : CookieJar → String → Option CookieEntry
  | [], _ => none
  | (k, e) :: rest, key => if k = key then some e else jarFind rest key

/-- `Cookies.set(key, payload, { expires })`: unconditionally overwrites any
prior cookie under `key` (last-writer-wins). -/
def cookiesSet (jar : CookieJar) (key : String) (e : CookieEntry) : CookieJar :=
  (key, e) :: (jar : List (String × CookieEntry)).filter (fun p => p.1 ≠ key)

/-- `Cookies.get(key)` at time `now`: returns the stored payload while the
cookie has not passed its medium-level expiry, `undefined` otherwise. -/
def cookiesGet (jar : CookieJar) (key : String) (now : Int) : Option StoredPayload :=
  match jarFind jar key with
  | some e => if now < e.expiresAt then some e.payload else none
  | none => none

/-- `Cookies.remove(key)`: deletes the cookie under `key`, touching no other. -/
def cookiesRemove (jar : CookieJar) (key : String) : CookieJar :=
  (jar : List (String × CookieEntry)).filter (fun p => p.1 ≠ key)

/-- The `try` body of `getCache` (`src/hooks/useCache.ts`, lines 61–66): parse
the raw cookie (which may throw, modelled as `Except.error`), then return the
`value` field if `Date.now() - ts < maxAge`, falling through to `undefined`
otherwise (a `NaN` comparison is false, so a missing or non-numeric `ts` falls
through as well). -/
def getCacheTryBody (p : StoredPayload) (maxAge now : Int) : Except Unit (Option Json) :=
  match p with
  | .corrupt => .error ()
  | .parsed value tsNum =>
    match tsNum with
    | some ts => if now - ts < maxAge then .ok value else .ok none
    | none => .ok none

/-- `getCache` of `src/hooks/useCache.ts` (lines 57–70) with the JS exception
behaviour made explicit in the type: an `Except.error` result would be an
exception escaping to the caller; the `catch` clause converts every throw of
the `try` body into `undefined`. -/
def getCacheResult (jar : CookieJar) (maxAge : Int) (key : String) (now : Int) :
    Except Unit (Option Json) :=
  match cookiesGet jar key now with
  | none => .ok none
  | some p =>
    match getCacheTryBody p maxAge now with
    | .ok v => .ok v
    | .error _ => .ok none

/-- `getCache(key)` of `src/hooks/useCache.ts` (lines 57–70): the value the
caller receives (`none` is `undefined`). -/
def getCache (jar : CookieJar) (maxAge : Int) (key : String) (now : Int) : Option Json :=
  match getCacheResult jar maxAge key now with
  | .ok v => v
  | .error _ => none

/-- `setCache(key, value)` of `src/hooks/useCache.ts` (lines 50–55): stores
`JSON.stringify({ value, ts: Date.now() })` with the cookie's own expiry set to
`maxAge / 1000` *days*, i.e. `maxAge * 86400` ms — far beyond `maxAge`. -/
def setCache (jar : CookieJar) (maxAge : Int) (key : String) (value : Json) (now : Int) :
    CookieJar :=
  cookiesSet jar key
    { payload := .parsed (some value) (some now), expiresAt := now + maxAge * 86400 }

namespace TransferDup

/-- `getCache` of the duplicate `useCache` defined inside
`src/hooks/useLiskTransfer.ts` (lines 323–336); its body is character-for-
character the body of `getCache` in `src/hooks/useCache.ts`. -/
def getCache (jar : CookieJar) (maxAge : Int) (key : String) (now : Int) : Option Json :=
  match getCacheResult jar maxAge key now with
  | .ok v => v
  | .error _ => none

/-- `setCache` of the duplicate `useCache` in `src/hooks/useLiskTransfer.ts`
(lines 297–310): same envelope, but the cookie expiry is
`maxAge / (1000*60*60*24)` days, i.e. exactly `maxAge` ms. -/
def setCache (jar : CookieJar) (maxAge : Int) (key : String) (value : Json) (now : Int) :
    CookieJar :=
  cookiesSet jar key
    { payload := .parsed (some value) (some now), expiresAt := now + maxAge }

/-- `purgeCache(key)` of the duplicate `useCache` in
`src/hooks/useLiskTransfer.ts` (lines 344–355): `Cookies.remove(key)`.  (The
surrounding component-local `cacheCleared` / message fields it also sets are
not involved in any property below.) -/
def purgeCache (jar : CookieJar) (key : String) : CookieJar :=
  cookiesRemove jar key

end TransferDup

/-!  The shared clear-timer effect.

Every hook declares one `useEffect` whose dependency array lists its
error/message state cells and whose body arms a single 3000 ms `setTimeout`
that resets every one of those cells to `undefined`; the effect's cleanup
(`clearTimeout`) cancels the previously armed timeout whenever one of the
dependencies changes (`src/unnamed/part_000` lines 68–96,
`src/hooks/useLiskTransfer.ts` lines 59–79).  The model below follows one
`error` / `message` pair through a run in which no other field of the hook
changes: at most one timeout is armed at a time, re-armed on every observable
change of the pair and firing 3000 ms later. -/

/-- The observable state of one error/message pair of a hook, together with
the instant at which the currently armed clear-timeout will fire (`none` when
no timeout is pending). -/
structure StatusSt where
  error : Option String
  message : Option String
  timerAt : Option Int

/-- The idle state a hook starts in: `useState(undefined)` for both cells and
no armed timeout. -/
def StatusSt.idle : StatusSt :=
  { error := none, message := none, timerAt := none }

/-- A settled status update writing `e` and `m` to the two cells at time
`now`.  If either cell actually changes, React re-renders, the effect's
cleanup cancels the pending timeout and the effect arms a fresh 3000 ms one;
if both writes are identity writes React bails out and the effect does not
re-run, so the pending timeout is left as it was. -/
def applyUpdate (now : Int) (e m : Option String) (s : StatusSt) : StatusSt :=
  if e = s.error ∧ m = s.message then s
  else { error := e, message := m, timerAt := some (now + 3000) }

/-- The armed timeout firing at instant `ft`: the body sets every tracked cell
to `undefined`.  If that changed a cell, the effect re-runs and arms a fresh
timeout 3000 ms later; if both cells were already `undefined`, the writes are
identity writes and no new timeout is armed. -/
def fireClear (s : StatusSt) (ft : Int) : StatusSt :=
  if s.error = none ∧ s.message = none then { s with timerAt := none }
  else { error := none, message := none, timerAt := some (ft + 3000) }

/-- One step of timer processing: fire the armed timeout if it is due at `t`. -/
def fireStep (s : StatusSt) (t : Int) : StatusSt :=
  match s.timerAt with
  | some ft => if ft ≤ t then fireClear s ft else s
  | none => s

/-- The status visible at time `t`, starting from `s` with no further calls:
process due timeouts.  Two steps always reach quiescence: the first due firing
clears both cells, after which any re-armed timeout fires without effect and
disarms. -/
def stateAt (s : StatusSt) (t : Int) : StatusSt :=
  fireStep (fireStep s t) t

/-!  The read-through / mutate operations named by the claims, one Lean
function per source function.  Each takes the credential, the cache `maxAge`
(60000 ms by default — every hook calls `useCache()` with no argument), the
current time, and the outcome of the remote call it would perform, and returns
the updated hook state, the value its promise resolves to (`none` =
`undefined`), and a record of the remote request it issued. -/

/-- Result of running one accessor operation: the hook state afterwards, the
promise's resolved value, and `some h` when a remote request was issued with
`Authorization` header `h` (`request = none` means the remote call was never
attempted). -/
structure FetchOut (σ : Type) where
  state : σ
  ret : Option Json
  request : Option (Option String)

/-- The `useState` cells of `useLiskCoupons` involved in fetching and creating
coupons (`src/unnamed/part_000` lines 44–51), plus the shared cookie jar. -/
structure CouponsSt where
  jar : CookieJar
  coupons : Json
  couponsLoading : Bool
  couponsError : Option String
  createCouponLoading : Bool
  createCouponError : Option String
  createCouponMessage : Option String

/-- Initial `useLiskCoupons` state over a given jar: `useState<iCoupon[]>([])`
and `undefined` errors/messages. -/
def CouponsSt.init (jar : CookieJar) : CouponsSt :=
  { jar := jar, coupons := Json.arr [], couponsLoading := false, couponsError := none,
    createCouponLoading := false, createCouponError := none, createCouponMessage := none }

/-- The remote branch of `fetchCoupons` (`src/unnamed/part_000` lines 111–121),
reached when the cache check falls through: `await axios.get`, then either
store and cache the data, or record the fetch error; `finally` clears the
loading flag. -/
def fetchCouponsRemote (apiKey : Option String) (maxAge now : Int)
    (remote : Except Unit Json) (s : CouponsSt) : FetchOut CouponsSt :=
  match remote with
  | .ok data =>
      let s2 := { s with
        coupons := data,
        jar := setCache s.jar maxAge ("coupons") data now,
        couponsLoading := false }
      { state := s2, ret := none, request := some apiKey }
  | .error _ =>
      let s2 := { s with
        couponsError := some ("Failed to fetch coupons."),
        couponsLoading := false }
      { state := s2, ret := none, request := some apiKey }

/-- `fetchCoupons` (`src/unnamed/part_000` lines 99–122): set loading, clear
the error, then read through the `coupons` cache key — a truthy cached value
is returned immediately without a remote call. -/
def fetchCoupons (apiKey : Option String) (maxAge now : Int)
    (remote : Except Unit Json) (s : CouponsSt) : FetchOut CouponsSt :=
  let s1 := { s with couponsLoading := true, couponsError := none }
  match getCache s1.jar maxAge ("coupons") now with
  | some c =>
      if c.truthy then
        { state := { s1 with coupons := c, couponsLoading := false },
          ret := none, request := none }
      else fetchCouponsRemote apiKey maxAge now remote s1
  | none => fetchCouponsRemote apiKey maxAge now remote s1

/-- `createCoupon` (`src/unnamed/part_000` lines 125–152): set the create
status to loading, perform the remote POST (outcome `remoteCreate`), and on
success record the success message and `await fetchCoupons()` — with no cache
invalidation in between.  `tCreate` is the time the mutation settles and
`tRefetch` the time the triggered refetch performs its cache check. -/
def createCoupon (apiKey : Option String) (maxAge tRefetch : Int)
    (remoteCreate : Except Unit Json) (remoteRefetch : Except Unit Json)
    (s : CouponsSt) : FetchOut CouponsSt :=
  let s1 := { s with
    createCouponLoading := true,
    createCouponError := none,
    createCouponMessage := none }
  match remoteCreate with
  | .ok data =>
      let s2 := { s1 with createCouponMessage := some ("Coupon created successfully.") }
      let refetched := fetchCoupons apiKey maxAge tRefetch remoteRefetch s2
      { state := { refetched.state with createCouponLoading := false },
        ret := some data, request := some apiKey }
  | .error _ =>
      let s2 := { s1 with
        createCouponError := some ("Failed to create coupon."),
        createCouponLoading := false }
      { state := s2, ret := none, request := some apiKey }

/-- The `useState` cells of `useLiskApiTokens` involved in fetching and
creating API tokens (`src/hooks/useLiskApiTokens.ts` lines 59–69). -/
structure TokensSt where
  jar : CookieJar
  tokens : Json
  apiTokenLoading : Bool
  apiTokenError : Option String
  apiTokenMessage : Option String
  createTokenLoading : Bool
  createTokenError : Option String
  createTokenMessage : Option String
  createdToken : Option Json

/-- Initial `useLiskApiTokens` state over a given jar. -/
def TokensSt.init (jar : CookieJar) : TokensSt :=
  { jar := jar, tokens := Json.arr [], apiTokenLoading := false, apiTokenError := none,
    apiTokenMessage := none, createTokenLoading := false, createTokenError := none,
    createTokenMessage := none, createdToken := none }

/-- The remote branch of `fetchTokens` (`src/hooks/useLiskApiTokens.ts` lines
125–138). -/
def fetchTokensRemote (apiKey : Option String) (maxAge now : Int)
    (remote : Except Unit Json) (s : TokensSt) : FetchOut TokensSt :=
  match remote with
  | .ok data =>
      let s2 := { s with
        tokens := data,
        jar := setCache s.jar maxAge ("api_tokens") data now,
        apiTokenMessage := some ("Tokens fetched successfully."),
        apiTokenLoading := false }
      { state := s2, ret := none, request := some apiKey }
  | .error _ =>
      let s2 := { s with
        apiTokenError := some ("Failed to fetch tokens."),
        apiTokenLoading := false }
      { state := s2, ret := none, request := some apiKey }

/-- `fetchTokens` (`src/hooks/useLiskApiTokens.ts` lines 113–139): read-through
on the `api_tokens` cache key. -/
def fetchTokens (apiKey : Option String) (maxAge now : Int)
    (remote : Except Unit Json) (s : TokensSt) : FetchOut TokensSt :=
  let s1 := { s with apiTokenLoading := true, apiTokenError := none }
  match getCache s1.jar maxAge ("api_tokens") now with
  | some c =>
      if c.truthy then
        { state := { s1 with tokens := c, apiTokenLoading := false },
          ret := none, request := none }
      else fetchTokensRemote apiKey maxAge now remote s1
  | none => fetchTokensRemote apiKey maxAge now remote s1

/-- `createToken` (`src/hooks/useLiskApiTokens.ts` lines 141–168): on success
store the created token, set the success message and call `fetchTokens()`
(fire-and-forget, so its effects still land) — again with no invalidation of
the `api_tokens` cache entry. -/
def createToken (apiKey : Option String) (maxAge tRefetch : Int)
    (remoteCreate : Except Unit Json) (remoteRefetch : Except Unit Json)
    (s : TokensSt) : FetchOut TokensSt :=
  let s1 := { s with
    createTokenLoading := true,
    createTokenError := none,
    createdToken := none }
  match remoteCreate with
  | .ok data =>
      let s2 := { s1 with
        createdToken := some data,
        createTokenMessage := some ("Token created successfully.") }
      let refetched := fetchTokens apiKey maxAge tRefetch remoteRefetch s2
      { state := { refetched.state with createTokenLoading := false },
        ret := none, request := some apiKey }
  | .error _ =>
      let s2 := { s1 with
        createTokenError := some ("Failed to create token."),
        createTokenLoading := false }
      { state := s2, ret := none, request := some apiKey }

/-- The `useState` cells of `useLiskBusiness` involved in fetching float
balances and pending transactions (`src/unnamed/part_000` lines 355–376).
`pendingTx` is `Option Json` because `setPendingTx(data.transactions)` stores
`undefined` when the response lacks a `transactions` field. -/
structure BusinessSt where
  jar : CookieJar
  float : Json
  loadingFloat : Bool
  floatError : Option String
  floatMessage : Option String
  pendingTx : Option Json
  pendingLoading : Bool
  pendingError : Option String
  pendingMessage : Option String

/-- Initial `useLiskBusiness` state over a given jar: empty arrays, nothing
loading, no errors or messages. -/
def BusinessSt.init (jar : CookieJar) : BusinessSt :=
  { jar := jar, float := Json.arr [], loadingFloat := false, floatError := none,
    floatMessage := none, pendingTx := some (Json.arr []), pendingLoading := false,
    pendingError := none, pendingMessage := none }

/-- `fetchFloat` (`src/unnamed/part_000` lines 413–442).  After setting the
loading flag and clearing the error it runs `if (apiKey) return;` — an
*inverted* credential guard: a truthy `apiKey` aborts the call (leaving
`loadingFloat` stuck at `true`), while an absent one falls through to the
cache check and the remote request.  On remote success it stores
`data.tokens || []`, caches it under `float_balances` and sets the success
message; the `catch` records the error and the code after the `try` returns
`[]`. -/
def fetchFloat (apiKey : Option String) (maxAge now : Int)
    (remote : Except Unit Json) (s : BusinessSt) : FetchOut BusinessSt :=
  let s1 := { s with loadingFloat := true, floatError := none }
  if strTruthy apiKey then { state := s1, ret := none, request := none }
  else
    match getCache s1.jar maxAge ("float_balances") now with
    | some c =>
        if c.truthy then
          { state := { s1 with float := c, loadingFloat := false },
            ret := some c, request := none }
        else fetchFloatRemote apiKey maxAge now remote s1
    | none => fetchFloatRemote apiKey maxAge now remote s1
where
  /-- The `try` block of `fetchFloat` (lines 426–441). -/
  fetchFloatRemote (apiKey : Option String) (maxAge now : Int)
      (remote : Except Unit Json) (s1 : BusinessSt) : FetchOut BusinessSt :=
    match remote with
    | .ok data =>
        let tokens := match data.getField ("tokens") with
          | some t => if t.truthy then t else Json.arr []
          | none => Json.arr []
        let s2 := { s1 with
          float := tokens,
          jar := setCache s1.jar maxAge ("float_balances") tokens now,
          floatMessage := some ("Fetched token balances successfully."),
          loadingFloat := false }
        { state := s2, ret := some tokens, request := some apiKey }
    | .error _ =>
        let s2 := { s1 with
          floatError := some ("Failed to fetch token balances."),
          loadingFloat := false }
        { state := s2, ret := some (Json.arr []), request := some apiKey }

/-- `fetchPendingTx` (`src/unnamed/part_000` lines 527–561): same inverted
`if (apiKey) return;` guard as `fetchFloat`, then a read-through on the
`pending_tx` key.  On remote success it stores `data.transactions` in state
but caches the whole response `data`.  (The `page`/`pageSize` arguments only
shape the request URL and are not modelled.) -/
def fetchPendingTx (apiKey : Option String) (maxAge now : Int)
    (remote : Except Unit Json) (s : BusinessSt) : FetchOut BusinessSt :=
  let s1 := { s with pendingLoading := true, pendingError := none }
  if strTruthy apiKey then { state := s1, ret := none, request := none }
  else
    match getCache s1.jar maxAge ("pending_tx") now with
    | some c =>
        if c.truthy then
          { state := { s1 with pendingTx := some c, pendingLoading := false },
            ret := some c, request := none }
        else fetchPendingTxRemote apiKey maxAge now remote s1
    | none => fetchPendingTxRemote apiKey maxAge now remote s1
where
  /-- The `try` block of `fetchPendingTx` (lines 540–556). -/
  fetchPendingTxRemote (apiKey : Option String) (maxAge now : Int)
      (remote : Except Unit Json) (s1 : BusinessSt) : FetchOut BusinessSt :=
    match remote with
    | .ok data =>
        let s2 := { s1 with
          pendingTx := data.getField ("transactions"),
          jar := setCache s1.jar maxAge ("pending_tx") data now,
          pendingMessage := some ("Fetched pending transactions successfully."),
          pendingLoading := false }
        { state := s2, ret := some data, request := some apiKey }
    | .error _ =>
        let s2 := { s1 with
          pendingError := some ("Failed to fetch pending transactions."),
          pendingLoading := false }
        { state := s2, ret := some (Json.arr []), request := some apiKey }

/-- The `useState` cells of `useLiskBalances` (`src/unnamed/part_002` lines
32–35). -/
structure BalancesSt where
  jar : CookieJar
  balances : Json
  balancesLoading : Bool
  balancesError : Option String
  balancesMessage : Option String

/-- Initial `useLiskBalances` state over a given jar. -/
def BalancesSt.init (jar : CookieJar) : BalancesSt :=
  { jar := jar, balances := Json.arr [], balancesLoading := false,
    balancesError := none, balancesMessage := none }

/-- `fetchBalances` (`src/unnamed/part_002` lines 47–84): read-through on the
key `user_balances_` ++ `userId`.  A remote failure carries the HTTP status
(`none` when the error has no response), classified into one of four error
messages.  On success, `data.tokens || []` is stored in state, but the cache
is only written when `data.tokens` is truthy. -/
def fetchBalances (apiKey : Option String) (maxAge now : Int) (userId : String)
    (remote : Except (Option Int) Json) (s : BalancesSt) : FetchOut BalancesSt :=
  let s1 := { s with balancesLoading := true, balancesError := none }
  match getCache s1.jar maxAge ("user_balances_" ++ userId) now with
  | some c =>
      if c.truthy then
        { state := { s1 with balances := c, balancesLoading := false },
          ret := some c, request := none }
      else fetchBalancesRemote apiKey maxAge now userId remote s1
  | none => fetchBalancesRemote apiKey maxAge now userId remote s1
where
  /-- The `try` block of `fetchBalances` (lines 52–79). -/
  fetchBalancesRemote (apiKey : Option String) (maxAge now : Int) (userId : String)
      (remote : Except (Option Int) Json) (s1 : BalancesSt) : FetchOut BalancesSt :=
    match remote with
    | .ok data =>
        let tokens := match data.getField ("tokens") with
          | some t => if t.truthy then t else Json.arr []
          | none => Json.arr []
        let cachedJar := match data.getField ("tokens") with
          | some t =>
              if t.truthy then setCache s1.jar maxAge ("user_balances_" ++ userId) t now
              else s1.jar
          | none => s1.jar
        let s2 := { s1 with
          balances := tokens,
          balancesMessage := some ("Fetched balances successfully."),
          jar := cachedJar,
          balancesLoading := false }
        { state := s2, ret := some tokens, request := some apiKey }
    | .error status =>
        let msg :=
          if status = some 400 then "Invalid user ID."
          else if status = some 401 then "Unauthorized."
          else if status = some 404 then "User not found."
          else "Failed to fetch balances."
        let s2 := { s1 with
          balancesError := some msg,
          balancesLoading := false }
        { state := s2, ret := some (Json.arr []), request := some apiKey }

/-- The `useState` cells of `useLiskBank` touched by `upsertBankAccount`
(`src/hooks/useLiskApiTokens.ts` second file, lines 331–334). -/
structure BankSt where
  bankAccount : Option Json
  bankLoading : Bool
  bankError : Option String
  bankMessage : Option String

/-- Initial `useLiskBank` state. -/
def BankSt.init : BankSt :=
  { bankAccount := none, bankLoading := false, bankError := none, bankMessage := none }

/-- JavaScript `x ?? undefined` on a possibly-missing JSON field: collapses a
present-but-`null` field to `undefined`. -/
def jsCoalesceUndef : Option Json → Option Json
  | some .null => none
  | x => x

/-- `upsertBankAccount` (`src/hooks/useLiskApiTokens.ts` second file, lines
362–396): the one accessor with a credential guard — `if (!apiKey) throw` —
which short-circuits before the remote POST when `apiKey` is absent (or the
empty string).  The thrown `Error` is caught by the same `catch` as a remote
failure, and since it has no `response`, the reported status error is the
generic `Failed to upsert bank account`, not a dedicated missing-credential
message.  A remote failure carries `err.response.data.message` (`none` when
absent). -/
def upsertBankAccount (apiKey : Option String)
    (remote : Except (Option String) Json) (s : BankSt) : FetchOut BankSt :=
  let s1 := { s with bankLoading := true, bankError := none }
  if !strTruthy apiKey then
    let s2 := { s1 with
      bankError := some ("Failed to upsert bank account"),
      bankLoading := false }
    { state := s2, ret := none, request := none }
  else
    match remote with
    | .ok data =>
        let s2 := { s1 with
          bankAccount := jsCoalesceUndef (data.getField ("bankAccount")),
          bankMessage := some ("Bank account created successfully"),
          bankLoading := false }
        { state := s2, ret := some data, request := some apiKey }
    | .error m =>
        let s2 := { s1 with
          bankError := some (strOr m ("Failed to upsert bank account")),
          bankLoading := false }
        { state := s2, ret := none, request := some apiKey }

/-- The two-call timer scenario of the spec: a settled `fail A` at `t0`
followed by a settled `succeed B` at `t1` on an idle controller.  In the
hooks, an operation's begin step clears both cells and its settle step writes
the outcome; each call is collapsed here to its settle instant, which is sound
for properties observed from `t1` on because only the latest armed timeout
survives. -/
def failThenSucceed (A B : String) (t0 t1 : Int) : StatusSt :=
  applyUpdate t1 none (some B) (applyUpdate t0 (some A) none StatusSt.idle)

/-- Concrete jar holding a fresh, truthy `coupons` entry (written at t = 0). -/
def jarCouponsW : CookieJar :=
  setCache [] 60000 ("coupons") (Json.arr [Json.num 1]) 0

/-- Concrete jar holding a fresh, truthy `user_balances_u1` entry. -/
def jarBalancesW : CookieJar :=
  setCache [] 60000 ("user_balances_u1") (Json.arr [Json.num 2]) 0

/-!  Helper lemmas about the cookie jar. -/

/-- Unfolding lemma for `jarFind` on a cons cell. -/
theorem jarFind_cons (k : String) (e : CookieEntry) (rest : CookieJar) (key : String) :
    jarFind ((k, e) :: rest) key = if k = key then some e else jarFind rest key := rfl

/-- Filtering out a cookie name makes it unfindable. -/
theorem jarFind_filter_self (jar : CookieJar) (key : String) :
    jarFind (jar.filter (fun p => p.1 ≠ key)) key = none := by
  induction jar with
  | nil => rfl
  | cons p rest ih =>
      rcases p with ⟨k, e⟩
      rw [List.filter_cons]
      by_cases h : k = key
      · rw [if_neg (by simp [h])]
        exact ih
      · rw [if_pos (by simp [h]), jarFind_cons, if_neg h]
        exact ih

/-- Filtering out one cookie name leaves lookups of any other name unchanged. -/
theorem jarFind_filter_ne (jar : CookieJar) (key k2 : String) (h : k2 ≠ key) :
    jarFind (jar.filter (fun p => p.1 ≠ key)) k2 = jarFind jar k2 := by
  induction jar with
  | nil => rfl
  | cons p rest ih =>
      rcases p with ⟨k, e⟩
      rw [List.filter_cons, jarFind_cons]
      by_cases hk : k = key
      · rw [if_neg (by simp [hk]),
            if_neg (fun hh : k = k2 => h (by rw [← hh, hk])), ih]
      · rw [if_pos (by simp [hk]), jarFind_cons]
        by_cases hk2 : k = k2
        · rw [if_pos hk2, if_pos hk2]
        · rw [if_neg hk2, if_neg hk2, ih]

/-- Removing an absent cookie is a no-op on the jar. -/
theorem cookiesRemove_absent (jar : CookieJar) (key : String) :
    jarFind jar key = none → cookiesRemove jar key = jar := by
  induction jar with
  | nil => intro _; rfl
  | cons p rest ih =>
      rcases p with ⟨k, e⟩
      rw [jarFind_cons]
      by_cases hk : k = key
      · rw [if_pos hk]; intro h; exact absurd h (by simp)
      · rw [if_neg hk]; intro h
        unfold cookiesRemove
        rw [List.filter_cons, if_pos (by simp [hk])]
        have hrec := ih h
        unfold cookiesRemove at hrec
        rw [hrec]

/-- A freshly set cookie is found, with exactly the entry written. -/
theorem jarFind_cookiesSet_self (jar : CookieJar) (key : String) (e : CookieEntry) :
    jarFind (cookiesSet jar key e) key = some e := by
  unfold cookiesSet
  rw [jarFind_cons, if_pos rfl]

/-- C4: for every key, every JSON-serializable value and every `maxAge > 0`,
`setCache key value` followed by `getCache key` before `maxAge` milliseconds
have elapsed (with no intervening writes to the key) returns exactly the value
that was set. -/
theorem setCache_then_getCache_roundtrip (jar : CookieJar) (maxAge : Int)
    (key : String) (v : Json) (t now : Int)
    (hpos : 0 < maxAge) (hle : t ≤ now) (hfresh : now - t < maxAge) :
    getCache (setCache jar maxAge key v t) maxAge key now = some v := by
  have hmed : now < t + maxAge * 86400 := by omega
  simp [getCache, getCacheResult, cookiesGet, setCache, getCacheTryBody,
    jarFind_cookiesSet_self, hmed, hfresh]

/-- Witness for C4 at a concrete input. -/
theorem setCache_then_getCache_roundtrip_witness :
    getCache (setCache [] 60000 ("k") (Json.str ("v")) 0) 60000 ("k") 1000
      = some (Json.str ("v")) :=
  setCache_then_getCache_roundtrip [] 60000 ("k") (Json.str ("v")) 0 1000
    (by decide) (by decide) (by decide)

/-- C5: an entry written at time `t` is visible to `getCache` at time `now`
iff `now - t < maxAge` (strictly); in particular a read at least `maxAge`
milliseconds after the last `setCache` of the key returns `undefined`.
Validity is evaluated at read time; the expired entry is merely invisible. -/
theorem getCache_validity_window (jar : CookieJar) (maxAge : Int)
    (key : String) (v : Json) (t now : Int)
    (hpos : 0 < maxAge) (hle : t ≤ now) :
    getCache (setCache jar maxAge key v t) maxAge key now
      = if now - t < maxAge then some v else none := by
  by_cases hfresh : now - t < maxAge
  · rw [if_pos hfresh]
    have hmed : now < t + maxAge * 86400 := by omega
    simp [getCache, getCacheResult, cookiesGet, setCache, getCacheTryBody,
      jarFind_cookiesSet_self, hmed, hfresh]
  · rw [if_neg hfresh]
    by_cases hmed : now < t + maxAge * 86400
    · simp [getCache, getCacheResult, cookiesGet, setCache, getCacheTryBody,
        jarFind_cookiesSet_self, hmed, hfresh]
    · simp [getCache, getCacheResult, cookiesGet, setCache, getCacheTryBody,
        jarFind_cookiesSet_self, hmed]

/-- Witness for C5 at a concrete input: exactly `maxAge` elapsed is a miss. -/
theorem getCache_validity_window_witness :
    getCache (setCache [] 60000 ("k") (Json.str ("v")) 0) 60000 ("k") 60000 = none := by
  have h := getCache_validity_window [] 60000 ("k") (Json.str ("v")) 0 60000
    (by decide) (by decide)
  simpa using h

/-- C6: `getCache` fails open — it never lets an exception escape to the
caller (the result, with JS exceptions made explicit, is always `Except.ok`),
and it returns `undefined` on a key never written, on a stored payload whose
parse throws (corrupt or non-object JSON), and on an envelope whose `ts` is
missing or fails numeric coercion. -/
theorem getCache_fail_open (jar : CookieJar) (maxAge : Int) (key : String) (now : Int) :
    getCacheResult jar maxAge key now = Except.ok (getCache jar maxAge key now)
    ∧ (jarFind jar key = none → getCache jar maxAge key now = none)
    ∧ (∀ e, jarFind jar key = some e → e.payload = StoredPayload.corrupt →
        getCache jar maxAge key now = none)
    ∧ (∀ e v, jarFind jar key = some e → e.payload = StoredPayload.parsed v none →
        getCache jar maxAge key now = none) := by
  refine ⟨?_, ?_, ?_, ?_⟩
  · unfold getCache getCacheResult
    cases cookiesGet jar key now with
    | none => rfl
    | some p =>
        dsimp only
        cases getCacheTryBody p maxAge now with
        | ok v => rfl
        | error u => rfl
  · intro h
    simp [getCache, getCacheResult, cookiesGet, h]
  · intro e he hp
    by_cases hm : now < e.expiresAt <;>
      simp [getCache, getCacheResult, cookiesGet, getCacheTryBody, he, hp, hm]
  · intro e v he hp
    by_cases hm : now < e.expiresAt <;>
      simp [getCache, getCacheResult, cookiesGet, getCacheTryBody, he, hp, hm]

/-- Witness for C6 at a concrete input: a corrupt stored payload reads as a
miss. -/
theorem getCache_fail_open_witness :
    getCache [(("k"), { payload := StoredPayload.corrupt, expiresAt := (100:Int) })]
      60000 ("k") 50 = none :=
  (getCache_fail_open
    [(("k"), { payload := StoredPayload.corrupt, expiresAt := (100:Int) })]
    60000 ("k") 50).2.2.1 _ rfl rfl

/-- C7: `purgeCache k1` removes exactly the entry at `k1`: afterwards `k1` is
absent, purging an absent key is a no-op on the jar, and the result of
`getCache` on any other key `k2` is unchanged. -/
theorem purgeCache_removes_exactly (jar : CookieJar) (k1 k2 : String) (maxAge now : Int) :
    jarFind (TransferDup.purgeCache jar k1) k1 = none
    ∧ (jarFind jar k1 = none → TransferDup.purgeCache jar k1 = jar)
    ∧ (k2 ≠ k1 → TransferDup.getCache (TransferDup.purgeCache jar k1) maxAge k2 now
        = TransferDup.getCache jar maxAge k2 now) := by
  refine ⟨?_, ?_, ?_⟩
  · exact jarFind_filter_self jar k1
  · exact cookiesRemove_absent jar k1
  · intro h
    have hf : jarFind (TransferDup.purgeCache jar k1) k2 = jarFind jar k2 :=
      jarFind_filter_ne jar k1 k2 h
    simp [TransferDup.getCache, getCacheResult, cookiesGet, hf]

/-- Witness for C7 at a concrete input: purging one set key leaves the read of
the other set key unchanged. -/
theorem purgeCache_removes_exactly_witness :
    TransferDup.getCache
        (TransferDup.purgeCache
          (TransferDup.setCache (TransferDup.setCache [] 60000 ("a") Json.null 0)
            60000 ("b") (Json.num 7) 0) ("a"))
        60000 ("b") 10
      = TransferDup.getCache
        (TransferDup.setCache (TransferDup.setCache [] 60000 ("a") Json.null 0)
          60000 ("b") (Json.num 7) 0)
        60000 ("b") 10 :=
  (purgeCache_removes_exactly
    (TransferDup.setCache (TransferDup.setCache [] 60000 ("a") Json.null 0)
      60000 ("b") (Json.num 7) 0) ("a") ("b") 60000 10).2.2 (by decide)

/-- C9: the two textually duplicated `getCache` implementations — the one in
`src/hooks/useCache.ts` and the one inside `src/hooks/useLiskTransfer.ts` —
return the same result on every underlying cookie-store state, key, `maxAge`
and read time (their `setCache` counterparts differ only in the storage-medium
expiry they request). -/
theorem getCache_copies_agree (jar : CookieJar) (maxAge : Int) (key : String) (now : Int) :
    getCache jar maxAge key now = TransferDup.getCache jar maxAge key now := rfl

/-- C3: on one status controller, after `fail A` at `t0` and `succeed B` at
`t1` (with `t0 < t1 < t0 + 3000`), the settled state has `message = B` and
`error = undefined`; no timeout armed by the earlier fail clears `B` before
`B`'s own 3000 ms delay elapses (the fail's timeout was cancelled when the
succeed re-armed it) and nothing ever restores `A`; `B` is cleared by the
timeout of its own call, exactly 3000 ms after `t1`. -/
theorem clearTimer_fail_then_succeed (A B : String) (t0 t1 : Int)
    (h01 : t0 < t1) (h1 : t1 < t0 + 3000) :
    (failThenSucceed A B t0 t1).message = some B
    ∧ (failThenSucceed A B t0 t1).error = none
    ∧ (∀ t, t1 ≤ t → t < t1 + 3000 →
        (stateAt (failThenSucceed A B t0 t1) t).message = some B
        ∧ (stateAt (failThenSucceed A B t0 t1) t).error = none)
    ∧ (∀ t, t1 + 3000 ≤ t → (stateAt (failThenSucceed A B t0 t1) t).message = none)
    ∧ (∀ t, t1 ≤ t → (stateAt (failThenSucceed A B t0 t1) t).error ≠ some A) := by
  have hs : failThenSucceed A B t0 t1
      = { error := none, message := some B, timerAt := some (t1 + 3000) } := by
    simp [failThenSucceed, applyUpdate, StatusSt.idle]
  refine ⟨by rw [hs], by rw [hs], ?_, ?_, ?_⟩
  · intro t ht1 ht2
    have hc : ¬ (t1 + 3000 ≤ t) := by omega
    rw [hs]
    simp [stateAt, fireStep, hc]
  · intro t ht
    rw [hs]
    by_cases h2 : t1 + 3000 + 3000 ≤ t
    · simp [stateAt, fireStep, fireClear, ht, h2]
    · simp [stateAt, fireStep, fireClear, ht, h2]
  · intro t ht
    rw [hs]
    rcases le_or_lt (t1 + 3000) t with hc | hc
    · by_cases h2 : t1 + 3000 + 3000 ≤ t <;>
        simp [stateAt, fireStep, fireClear, hc, h2]
    · have hc2 : ¬ (t1 + 3000 ≤ t) := by omega
      simp [stateAt, fireStep, hc2]

/-- Witness for C3 at a concrete input. -/
theorem clearTimer_fail_then_succeed_witness :
    (failThenSucceed ("A") ("B") 0 1000).message = some ("B")
    ∧ (failThenSucceed ("A") ("B") 0 1000).error = none :=
  ⟨(clearTimer_fail_then_succeed ("A") ("B") 0 1000 (by decide) (by decide)).1,
   (clearTimer_fail_then_succeed ("A") ("B") 0 1000 (by decide) (by decide)).2.1⟩

/-- C1 counterexample: with a fresh `coupons` cache entry written at t = 0,
`createCoupon` succeeds at t = 1000 (its success message is set and its
promise resolves to the created coupon), yet the refetch it triggers returns
the pre-mutation cached value, not the fresh remote data — no cache key is
invalidated by the mutation. -/
theorem createCoupon_refetch_returns_stale :
    (createCoupon (some ("key")) 60000 1000
        (Except.ok (Json.str ("created"))) (Except.ok (Json.arr [Json.str ("new")]))
        (CouponsSt.init (setCache [] 60000 ("coupons") (Json.arr [Json.str ("old")]) 0))
      ).state.createCouponMessage = some ("Coupon created successfully.")
    ∧ (createCoupon (some ("key")) 60000 1000
        (Except.ok (Json.str ("created"))) (Except.ok (Json.arr [Json.str ("new")]))
        (CouponsSt.init (setCache [] 60000 ("coupons") (Json.arr [Json.str ("old")]) 0))
      ).ret = some (Json.str ("created"))
    ∧ (createCoupon (some ("key")) 60000 1000
        (Except.ok (Json.str ("created"))) (Except.ok (Json.arr [Json.str ("new")]))
        (CouponsSt.init (setCache [] 60000 ("coupons") (Json.arr [Json.str ("old")]) 0))
      ).state.coupons = Json.arr [Json.str ("old")]
    ∧ (createCoupon (some ("key")) 60000 1000
        (Except.ok (Json.str ("created"))) (Except.ok (Json.arr [Json.str ("new")]))
        (CouponsSt.init (setCache [] 60000 ("coupons") (Json.arr [Json.str ("old")]) 0))
      ).state.coupons ≠ Json.arr [Json.str ("new")] := by
  refine ⟨rfl, rfl, rfl, ?_⟩
  intro h
  have h2 : Json.arr [Json.str ("old")] = Json.arr [Json.str ("new")] := h
  injection h2 with h3
  injection h3 with h4 h5
  injection h4 with h6
  exact absurd h6 (by decide)

/-- C1 (amended): a successful mutation (`createCoupon`, `createToken`)
performs no cache invalidation; the refetch it triggers is a plain
read-through, so the resulting list state is the still-fresh truthy cached
value — the pre-mutation value — whenever the invalidated key holds one at
refetch time, and the fresh remote data only otherwise. -/
theorem mutation_refetch_reads_through (apiKey : Option String) (maxAge tRefetch : Int)
    (d r : Json) (s : CouponsSt) (s2 : TokensSt) :
    (createCoupon apiKey maxAge tRefetch (Except.ok d) (Except.ok r) s).state.coupons
      = (match getCache s.jar maxAge ("coupons") tRefetch with
         | some c => if c.truthy then c else r
         | none => r)
    ∧ (createToken apiKey maxAge tRefetch (Except.ok d) (Except.ok r) s2).state.tokens
      = (match getCache s2.jar maxAge ("api_tokens") tRefetch with
         | some c => if c.truthy then c else r
         | none => r) := by
  constructor
  · unfold createCoupon fetchCoupons fetchCouponsRemote
    dsimp only
    cases getCache s.jar maxAge ("coupons") tRefetch with
    | none => rfl
    | some c => by_cases hc : c.truthy <;> simp [hc]
  · unfold createToken fetchTokens fetchTokensRemote
    dsimp only
    cases getCache s2.jar maxAge ("api_tokens") tRefetch with
    | none => rfl
    | some c => by_cases hc : c.truthy <;> simp [hc]

/-- C2: the credential guard the spec mandates is missing or inverted.  With
`apiKey` absent, `fetchCoupons` still issues the remote request (with an
`undefined` Authorization header) and on failure reports the generic fetch
error rather than a missing-credential status; `fetchFloat` also proceeds to
the remote call when the credential is absent, yet aborts when it is present;
`upsertBankAccount` does short-circuit without a request, but reports the
generic upsert error.  This contradicts the spec's uniform short-circuit
policy (spec §4.3 and §9 call the observed behaviour a bug). -/
theorem missingCredential_guard_inconsistent :
    (fetchCoupons none 60000 0 (Except.ok (Json.arr [])) (CouponsSt.init [])).request
        = some none
    ∧ (fetchCoupons none 60000 0 (Except.error ()) (CouponsSt.init [])).state.couponsError
        = some ("Failed to fetch coupons.")
    ∧ (fetchFloat none 60000 0 (Except.ok (Json.obj [])) (BusinessSt.init [])).request
        = some none
    ∧ (fetchFloat (some ("secret")) 60000 0 (Except.ok (Json.obj []))
        (BusinessSt.init [])).request = none
    ∧ (upsertBankAccount none (Except.ok Json.null) BankSt.init).request = none
    ∧ (upsertBankAccount none (Except.ok Json.null) BankSt.init).state.bankError
        = some ("Failed to upsert bank account") :=
  ⟨rfl, rfl, rfl, rfl, rfl, rfl⟩

/-- C8 counterexample: `getCache` can return a value that is falsy (here the
JSON value `false`, stored fresh under the `coupons` key); the claim calls any
returned value a hit, but `fetchCoupons` tests the cached value for JS
truthiness and proceeds to invoke the remote fetch anyway. -/
theorem falsy_cache_hit_invokes_remote :
    getCache (setCache [] 60000 ("coupons") (Json.bool false) 0) 60000 ("coupons") 1000
        = some (Json.bool false)
    ∧ (fetchCoupons (some ("k")) 60000 1000 (Except.ok (Json.arr []))
        (CouponsSt.init (setCache [] 60000 ("coupons") (Json.bool false) 0))).request
        = some (some ("k")) :=
  ⟨rfl, rfl⟩

/-- C8 (amended): when `getCache` returns a *truthy* value for the
operation's cache key, the read-through fetch stores the cached value in its
data state, clears the loading flag, and returns without invoking the remote
fetch; a falsy cached value is treated as a miss. -/
theorem truthy_cache_hit_short_circuits (apiKey : Option String) (maxAge now : Int)
    (remote : Except Unit Json) (userId : String) (remoteB : Except (Option Int) Json)
    (s : CouponsSt) (sb : BalancesSt) (v w : Json)
    (hc : getCache s.jar maxAge ("coupons") now = some v) (hv : v.truthy = true)
    (hcb : getCache sb.jar maxAge ("user_balances_" ++ userId) now = some w)
    (hw : w.truthy = true) :
    fetchCoupons apiKey maxAge now remote s
      = { state := { s with coupons := v, couponsLoading := false, couponsError := none },
          ret := none, request := none }
    ∧ fetchBalances apiKey maxAge now userId remoteB sb
      = { state := { sb with balances := w, balancesLoading := false, balancesError := none },
          ret := some w, request := none } := by
  constructor
  · unfold fetchCoupons
    dsimp only
    rw [hc]
    dsimp only
    rw [if_pos hv]
  · unfold fetchBalances
    dsimp only
    rw [hcb]
    dsimp only
    rw [if_pos hw]

/-- Witness for the amended C8 at concrete inputs. -/
theorem truthy_cache_hit_short_circuits_witness :
    fetchCoupons (some ("k")) 60000 1000 (Except.ok (Json.arr []))
        (CouponsSt.init jarCouponsW)
      = { state := { CouponsSt.init jarCouponsW with
            coupons := Json.arr [Json.num 1], couponsLoading := false,
            couponsError := none },
          ret := none, request := none }
    ∧ fetchBalances (some ("k")) 60000 1000 ("u1") (Except.ok (Json.obj []))
        (BalancesSt.init jarBalancesW)
      = { state := { BalancesSt.init jarBalancesW with
            balances := Json.arr [Json.num 2], balancesLoading := false,
            balancesError := none },
          ret := some (Json.arr [Json.num 2]), request := none } :=
  truthy_cache_hit_short_circuits (some ("k")) 60000 1000 (Except.ok (Json.arr []))
    ("u1") (Except.ok (Json.obj [])) (CouponsSt.init jarCouponsW)
    (BalancesSt.init jarBalancesW) (Json.arr [Json.num 1]) (Json.arr [Json.num 2])
    rfl rfl rfl rfl

/-- C10 counterexample: with `apiKey` present, `fetchFloat` does clear the
error cell before its early return (so a previous error *is* updated by the
call, contrary to the claim that no error state changes); and with `apiKey`
defined but empty — still "defined" — the guard `if (apiKey)` is falsy and
the call does not return early but proceeds to the remote request. -/
theorem fetchFloat_guard_counterexample :
    (fetchFloat (some ("k")) 60000 0 (Except.ok (Json.obj []))
        { BusinessSt.init [] with floatError := some ("E") }).state.floatError = none
    ∧ (fetchFloat (some ("")) 60000 0 (Except.ok (Json.obj []))
        (BusinessSt.init [])).request = some (some ("")) :=
  ⟨rfl, rfl⟩

/-- C10 (amended): whenever `apiKey` is truthy (defined and non-empty),
`fetchFloat` and `fetchPendingTx` return early (resolving to `undefined`)
after setting their loading flag to `true` and resetting their error cell to
`undefined`, before consulting the cache or issuing the remote request; the
loading flag remains `true` and no data, cache, or message state is updated
by the call. -/
theorem invertedGuard_early_return (apiKey : Option String) (maxAge now : Int)
    (remote remote2 : Except Unit Json) (s : BusinessSt)
    (hk : strTruthy apiKey = true) :
    fetchFloat apiKey maxAge now remote s
      = { state := { s with loadingFloat := true, floatError := none },
          ret := none, request := none }
    ∧ fetchPendingTx apiKey maxAge now remote2 s
      = { state := { s with pendingLoading := true, pendingError := none },
          ret := none, request := none } := by
  constructor
  · unfold fetchFloat
    rw [if_pos hk]
  · unfold fetchPendingTx
    rw [if_pos hk]

/-- Witness for the amended C10 at a concrete input. -/
theorem invertedGuard_early_return_witness :
    fetchFloat (some ("k")) 60000 0 (Except.ok (Json.obj [])) (BusinessSt.init [])
      = { state := { BusinessSt.init [] with loadingFloat := true, floatError := none },
          ret := none, request := none }
    ∧ fetchPendingTx (some ("k")) 60000 0 (Except.ok (Json.obj [])) (BusinessSt.init [])
      = { state := { BusinessSt.init [] with pendingLoading := true, pendingError := none },
          ret := none, request := none } :=
  invertedGuard_early_return (some ("k")) 60000 0 (Except.ok (Json.obj []))
    (Except.ok (Json.obj [])) (BusinessSt.init []) rfl

end StablecoinHooks
